import Mathlib

/-!
Shallow embedding of src/server.js of the otoge_realtime_battle repository.

The source file holds two revisions of the server, separated by a document
marker. The second revision (score rules, all-zero debounce timer, per-room
point ledger, socket handlers join_room, join_room_python, score_update,
score_update_python, cleanup, finalizeSongRanking, the idle sweeper) is
modelled in namespace OtogeV2. The first revision (Room, User and Song
classes with REST handlers, in particular Room.removeMember and the
POST /api/rooms/:roomId/finish handler) is modelled in namespace OtogeV1.

JS Maps are modelled as association lists in insertion order, JS Sets as
duplicate-free lists in insertion order. JS numbers that reach score fields
are modelled as rationals, which is exact for the comparisons and floors
the code performs. Wall-clock timestamps are passed in explicitly as
natural numbers; the single-shot debounce timer is modelled as an optional
delay stored on the room, with a separate timerFire transition for the
expiry callback. Broadcast payloads are modelled by emitted event markers
plus functions of the room state that compute the broadcast content.
-/

namespace Otoge

/-- Lookup in an association list, mirroring JS Map.get. -/
def mapGet {α : Type} (k : String) : List (String × α) → Option α
  | [] => none
  | kv :: l => if kv.1 = k then some kv.2 else mapGet k l

/-- Update or append, mirroring JS Map.set: an existing key keeps its position,
a new key is appended at the end (insertion order). -/
def mapSet {α : Type} (k : String) (v : α) : List (String × α) → List (String × α)
  | [] => [(k, v)]
  | kv :: l => if kv.1 = k then (k, v) :: l else kv :: mapSet k v l

/-- Removal, mirroring JS Map.delete. JS maps never hold a key twice, so
removing every occurrence agrees with the source on all reachable states. -/
def mapDel {α : Type} (k : String) (l : List (String × α)) : List (String × α) :=
  l.filter (fun kv => kv.1 != k)

/-- Insert into a descending-sorted list, placing the new element before
elements with an equal key. Mirrors the stable JS array sort with the
comparator fun a b => b.key - a.key, where the element being inserted
originally preceded the list elements. -/
def insertDescBy {α β : Type} [LinearOrder β] (key : α → β) (a : α) :
    List α → List α
  | [] => [a]
  | b :: l => if key b ≤ key a then a :: b :: l else b :: insertDescBy key a l

/-- Stable sort by a key, descending, as performed by the JS array sort. -/
def sortDescBy {α β : Type} [LinearOrder β] (key : α → β) : List α → List α
  | [] => []
  | a :: l => insertDescBy key a (sortDescBy key l)

/-- Values a JavaScript score payload field can hold in the model. -/
inductive JsVal where
  | num (q : ℚ)
  | str (s : String)
  | undef
deriving DecidableEq

/-- JavaScript truthiness: the number 0, the empty string and undefined are
falsy. -/
def JsVal.truthy : JsVal → Bool
  | .num q => q != 0
  | .str s => s != ""
  | .undef => false

/-- The JavaScript or-else operator on payload fields. -/
def jsOr (a b : JsVal) : JsVal := if a.truthy then a else b

/-- JS String.prototype.trim: strip leading and trailing whitespace. Defined
by structural recursion over the character list so that concrete runs reduce
inside the kernel. -/
def jsTrim (s : String) : String :=
  ⟨((s.data.dropWhile Char.isWhitespace).reverse.dropWhile
      Char.isWhitespace).reverse⟩

end Otoge

namespace OtogeV2

open Otoge

/-- Configured room capacity, players plus spectators. -/
def MAX_PLAYERS_PER_ROOM : ℕ := 12

/-- Global cap on the number of rooms. -/
def MAX_ROOMS : ℕ := 20

/-- Idle room timeout in milliseconds, 30 minutes. -/
def INACTIVE_TIMEOUT : ℕ := 30 * 60 * 1000

/-- Debounce delay of the all-zero timer in milliseconds. -/
def ZERO_SCORE_THRESHOLD : ℕ := 3000

/-- A member record stored in room.players, keyed by socket id. -/
structure Player where
  userId : String
  normalScore : ℤ
  exScore : ℤ
  displayScore : ℤ
  lastUpdate : ℕ
  joinTime : ℕ
  isCreator : Bool
  isPlayer : Bool
  isPythonClient : Bool
deriving DecidableEq

/-- One row of a finalized ranking. -/
structure RankEntry where
  rank : ℕ
  userId : String
  displayScore : ℤ
  normalScore : ℤ
  exScore : ℤ
  points : ℕ
deriving DecidableEq

/-- One entry of room.songHistory. -/
structure SongEntry where
  songNumber : ℕ
  scoreRule : String
  ranking : List RankEntry
  timestamp : ℕ
deriving DecidableEq

/-- A room object of the second revision. The allZeroScoreTimer field holds
the delay of the pending single-shot timer, or none when no timer runs.
The clientInfo and metadata payloads of python clients carry no meaning for the
state machine and are not modelled. -/
structure GameRoom where
  id : String
  name : String
  password : Option String
  creator : String
  scoreRule : String
  players : List (String × Player)
  createdAt : ℕ
  lastActivity : ℕ
  isActive : Bool
  pythonClients : List String
  currentSong : ℕ
  songHistory : List SongEntry
  playerPoints : List (String × ℕ)
  allZeroScoreTimer : Option ℕ
  lastScoreUpdate : ℕ
deriving DecidableEq

/-- A connection record, keyed by socket id. -/
structure Conn where
  userId : String
  roomId : String
  normalScore : ℤ
  exScore : ℤ
  displayScore : ℤ
  joinTime : ℕ
  isPythonClient : Bool
deriving DecidableEq

/-- Global server state of the second revision. -/
structure ServerState where
  gameRooms : List (String × GameRoom)
  connections : List (String × Conn)
deriving DecidableEq

/-- Events the handlers emit to sockets and rooms. Broadcast payload markers
stand for payloads computed from the state at emission time. -/
inductive Emit where
  | error (sock code : String)
  | roomCreated (sock roomId : String)
  | roomJoined (sock roomId : String)
  | roomJoinedPython (sock roomId : String)
  | leftRoom (sock : String)
  | roomUpdate (roomId : String)
  | roomList
  | songFinished (songNumber : ℕ) (ranking : List RankEntry)
      (totalPoints : List (String × ℕ)) (nextSong : ℕ)
deriving DecidableEq

/-- Result of a REST request. -/
inductive RestResp where
  | ok (roomId : String)
  | err (status : ℕ)
deriving DecidableEq

/-- Payload of a score_update event: a bare number, an object with optional
fields, or any other value. -/
inductive ScoreData where
  | num (n : ℚ)
  | obj (normalScore exScore score : JsVal)
  | other
deriving DecidableEq

/-- The member records of the current players of a room, in map order. -/
def roomPlayers (room : GameRoom) : List Player :=
  (room.players.map Prod.snd).filter (·.isPlayer)

/-- True when every current player has display score exactly zero. -/
def allZero (room : GameRoom) : Bool :=
  (roomPlayers room).all (fun p => p.displayScore == 0)

/-- Timer slot value left behind by checkAllZeroScores: with no player the
routine returns early, with every player at zero it starts the single-shot
timer unless one is already running, and otherwise it cancels any running
timer. -/
def checkTimer (room : GameRoom) : Option ℕ :=
  if (roomPlayers room).length = 0 then room.allZeroScoreTimer
  else if allZero room then
    if room.allZeroScoreTimer.isSome then room.allZeroScoreTimer
    else some ZERO_SCORE_THRESHOLD
  else none

/-- The checkAllZeroScores routine, which only ever writes the timer slot of
the room. -/
def checkAllZeroScores (room : GameRoom) : GameRoom :=
  { room with allZeroScoreTimer := checkTimer room }

/-- Per-rank tournament points: 2 for rank one, 1 for rank two, 0 below. -/
def rankPoints (i : ℕ) : ℕ := if i = 0 then 2 else if i = 1 then 1 else 0

/-- The finalizeSongRanking routine. Players are kept only when their
display score is positive; with nobody left the routine returns without
touching the room and without emitting anything. Otherwise it ranks by
display score descending, adds the awarded points to the ledger, appends a
history entry, advances the song counter and emits song_finished together
with the room broadcasts. -/
def finalizeSongRanking (s : ServerState) (roomId : String) (now : ℕ) :
    ServerState × List Emit :=
  match mapGet roomId s.gameRooms with
  | none => (s, [])
  | some room =>
    let players := sortDescBy (·.displayScore)
      ((room.players.map Prod.snd).filter
        (fun p => p.isPlayer && decide (0 < p.displayScore)))
    if players.length = 0 then (s, [])
    else
      let ranking := players.enum.map (fun ip =>
        ({ rank := ip.1 + 1
           userId := ip.2.userId
           displayScore := ip.2.displayScore
           normalScore := ip.2.normalScore
           exScore := ip.2.exScore
           points := rankPoints ip.1 } : RankEntry))
      let points1 := ranking.foldl (fun pts e =>
        mapSet e.userId (((mapGet e.userId pts).getD 0) + e.points) pts)
        room.playerPoints
      let entry : SongEntry :=
        { songNumber := room.currentSong
          scoreRule := room.scoreRule
          ranking := ranking
          timestamp := now }
      let room1 := { room with
        playerPoints := points1
        songHistory := room.songHistory ++ [entry]
        currentSong := room.currentSong + 1 }
      let totalPoints := sortDescBy (fun x => (x.2 : ℤ)) room1.playerPoints
      ({ s with gameRooms := mapSet roomId room1 s.gameRooms },
       [.songFinished room.currentSong ranking totalPoints
          (room.currentSong + 1),
        .roomUpdate roomId, .roomList])

/-- Expiry of the single-shot all-zero timer: the callback runs
finalizeSongRanking and then clears the timer slot of the room. -/
def timerFire (s : ServerState) (roomId : String) (now : ℕ) :
    ServerState × List Emit :=
  let r := finalizeSongRanking s roomId now
  match mapGet roomId r.1.gameRooms with
  | none => r
  | some room =>
    let rooms1 :=
      mapSet roomId { room with allZeroScoreTimer := none } r.1.gameRooms
    ({ r.1 with gameRooms := rooms1 }, r.2)

/-- The room as cleanup leaves it before the emptiness check: the member
record and python registration of the socket dropped, the activity stamp
refreshed, and any running debounce timer cleared. -/
def cleanedRoom (sid : String) (room : GameRoom) (now : ℕ) : GameRoom :=
  { room with
    players := mapDel sid room.players
    pythonClients := room.pythonClients.filter (· != sid)
    lastActivity := now
    allZeroScoreTimer := none }

/-- The cleanup routine shared by leave_room, disconnect and the join
handlers: drop the member record of the socket, clear any running debounce
timer of the room, and delete the room once its last member is gone. -/
def cleanup (s : ServerState) (sid : String) (now : ℕ) :
    ServerState × List Emit :=
  match mapGet sid s.connections with
  | none => (s, [])
  | some conn =>
    match mapGet conn.roomId s.gameRooms with
    | none => ({ s with connections := mapDel sid s.connections }, [])
    | some room =>
      let room1 := cleanedRoom sid room now
      if room1.players.length = 0 then
        ({ gameRooms := mapDel conn.roomId s.gameRooms
           connections := mapDel sid s.connections }, [.roomList])
      else
        ({ gameRooms := mapSet conn.roomId room1 s.gameRooms
           connections := mapDel sid s.connections },
         [.roomUpdate conn.roomId, .roomList])

/-- A fresh room object as built by both room-creation handlers. An empty
supplied password is falsy in JS and stores no digest; an empty or missing
scoreRule falls back to normal. -/
def mkRoom (hash : String → String) (roomId roomName : String)
    (password : Option String) (userId : String) (scoreRule : Option String)
    (now : ℕ) : GameRoom :=
  { id := roomId
    name := jsTrim roomName
    password := match password with
      | some p => if p = "" then none else some (hash (jsTrim p))
      | none => none
    creator := jsTrim userId
    scoreRule := match scoreRule with
      | some r => if r = "" then "normal" else r
      | none => "normal"
    players := []
    createdAt := now
    lastActivity := now
    isActive := true
    pythonClients := []
    currentSong := 1
    songHistory := []
    playerPoints := []
    allZeroScoreTimer := none
    lastScoreUpdate := now }

/-- Rule validation of the creation handlers: a present, nonempty rule must
be normal or ex. -/
def badRule : Option String → Bool
  | some r => r != "" && r != "normal" && r != "ex"
  | none => false

/-- REST room creation: validates inputs and the global room cap, then
stores a room with an empty player map; the creator is recorded only by
name. The roomId argument stands for the freshly generated collision-free
identifier. -/
def createRoomRest (hash : String → String) (s : ServerState)
    (roomName : String) (password : Option String) (userId : String)
    (scoreRule : Option String) (roomId : String) (now : ℕ) :
    ServerState × RestResp :=
  if roomName = "" ∨ userId = "" then (s, .err 400)
  else if 30 < roomName.length ∨ 20 < userId.length then (s, .err 400)
  else if badRule scoreRule then (s, .err 400)
  else if MAX_ROOMS ≤ s.gameRooms.length then (s, .err 409)
  else
    let rooms1 :=
      mapSet roomId (mkRoom hash roomId roomName password userId scoreRule now)
        s.gameRooms
    ({ s with gameRooms := rooms1 }, .ok roomId)

/-- A fresh member record as stored by the join and creation handlers. -/
def newPlayer (userId : String) (isPlayer isCreator isPython : Bool)
    (now : ℕ) : Player :=
  { userId := jsTrim userId
    normalScore := 0
    exScore := 0
    displayScore := 0
    lastUpdate := now
    joinTime := now
    isCreator := isCreator
    isPlayer := isPlayer
    isPythonClient := isPython }

/-- A fresh connection record. -/
def newConn (userId roomId : String) (isPython : Bool) (now : ℕ) : Conn :=
  { userId := jsTrim userId
    roomId := roomId
    normalScore := 0
    exScore := 0
    displayScore := 0
    joinTime := now
    isPythonClient := isPython }

/-- Shared tail of the join handlers, run after cleanup: store the member
record, give a player a zero ledger entry when none exists, refresh the
activity stamp, and register the python socket when asked. When cleanup has
just deleted the target room the JS code mutates an orphaned room object,
which is invisible in the registry; the state is then left as is. -/
def addJoin (s : ServerState) (sid roomId : String) (p : Player)
    (isPlayer addPython : Bool) (now : ℕ) : ServerState :=
  match mapGet roomId s.gameRooms with
  | none => s
  | some room =>
    let room1 := { room with
      players := mapSet sid p room.players
      playerPoints :=
        if isPlayer && (mapGet p.userId room.playerPoints).isNone then
          mapSet p.userId 0 room.playerPoints
        else room.playerPoints
      lastActivity := now
      pythonClients :=
        if addPython then
          if room.pythonClients.contains sid then room.pythonClients
          else room.pythonClients ++ [sid]
        else room.pythonClients }
    { s with gameRooms := mapSet roomId room1 s.gameRooms }

/-- The password guard of join_room: with a stored digest, a missing or
empty candidate fails, as does a digest mismatch after trimming. -/
def pwdFail (hash : String → String) (stored cand : Option String) : Bool :=
  match stored with
  | none => false
  | some d =>
    if d = "" then false
    else match cand with
      | none => true
      | some p => p == "" || hash (jsTrim p) != d

/-- The join_room handler: validates input, room existence, password and
capacity in that order, failing without touching any state; on success it
runs cleanup for the socket and stores the member and connection records. -/
def joinRoom (hash : String → String) (s : ServerState)
    (sid roomId userId : String) (password : Option String)
    (isPlayer isPythonSocket : Bool) (now : ℕ) : ServerState × List Emit :=
  if roomId = "" ∨ userId = "" then (s, [.error sid "MISSING_DATA"])
  else
    match mapGet roomId s.gameRooms with
    | none => (s, [.error sid "ROOM_NOT_FOUND"])
    | some room =>
      if pwdFail hash room.password password then
        (s, [.error sid "WRONG_PASSWORD"])
      else if MAX_PLAYERS_PER_ROOM ≤ room.players.length then
        (s, [.error sid "ROOM_FULL"])
      else
        let c := cleanup s sid now
        let s1 := addJoin c.1 sid roomId
          (newPlayer userId isPlayer false isPythonSocket now) isPlayer false now
        let conns1 :=
          mapSet sid (newConn userId roomId isPythonSocket now) s1.connections
        let s2 := { s1 with connections := conns1 }
        (s2, c.2 ++ [.roomJoined sid roomId, .roomUpdate roomId, .roomList])

/-- The join_room_python handler: after the room lookup it performs no
password and no capacity check at all, then joins exactly like join_room. -/
def joinRoomPython (s : ServerState) (sid roomId userId : String)
    (isPlayer : Bool) (now : ℕ) : ServerState × List Emit :=
  match mapGet roomId s.gameRooms with
  | none => (s, [.error sid "ROOM_NOT_FOUND"])
  | some _ =>
    let c := cleanup s sid now
    let s1 := addJoin c.1 sid roomId (newPlayer userId isPlayer false true now)
      isPlayer true now
    let conns1 := mapSet sid (newConn userId roomId true now) s1.connections
    let s2 := { s1 with connections := conns1 }
    (s2, c.2 ++ [.roomJoinedPython sid roomId, .roomUpdate roomId, .roomList])

/-- The create_room socket handler: validates input, rule and the room cap,
runs cleanup for the socket, then stores a room that already contains the
creator as a player with a zero ledger entry. -/
def createRoomSocket (hash : String → String) (s : ServerState)
    (sid roomName : String) (password : Option String) (userId : String)
    (scoreRule : Option String) (roomId : String) (now : ℕ) :
    ServerState × List Emit :=
  if roomName = "" ∨ userId = "" then (s, [.error sid "MISSING_DATA"])
  else if badRule scoreRule then (s, [.error sid "INVALID_SCORE_RULE"])
  else if MAX_ROOMS ≤ s.gameRooms.length then
    (s, [.error sid "MAX_ROOMS_REACHED"])
  else
    let c := cleanup s sid now
    let room0 := mkRoom hash roomId roomName password userId scoreRule now
    let room1 := { room0 with
      players := [(sid, newPlayer userId true true false now)]
      playerPoints := [(jsTrim userId, 0)] }
    ({ gameRooms := mapSet roomId room1 c.1.gameRooms
       connections := mapSet sid (newConn userId roomId false now)
         c.1.connections },
     c.2 ++ [.roomCreated sid roomId, .roomUpdate roomId, .roomList])

/-- Normalization of the score_update payload, including the backwards
compatible forms: a bare number feeds both fields, object fields fall back
through the or-else chain normalScore, score, 0 resp exScore, score, 0, and
anything that does not normalize to two numbers is rejected. -/
def extractScores : ScoreData → Option (ℚ × ℚ)
  | .num n => some (n, n)
  | .obj ns es sc =>
    match jsOr ns (jsOr sc (.num 0)), jsOr es (jsOr sc (.num 0)) with
    | .num nv, .num ev => some (nv, ev)
    | _, _ => none
  | .other => none

/-- The range guard of both score handlers. -/
def scoreOutOfRange (nv ev : ℚ) : Bool :=
  decide (nv < 0) || decide (99999999 < nv) ||
  decide (ev < 0) || decide (99999999 < ev)

/-- The member record after an accepted submission: both scores floored,
the display score picked by the room rule, the update stamp refreshed. -/
def scoredPlayer (room : GameRoom) (player : Player) (nv ev : ℚ) (now : ℕ) :
    Player :=
  { player with
    normalScore := ⌊nv⌋
    exScore := ⌊ev⌋
    displayScore := if room.scoreRule = "ex" then ⌊ev⌋ else ⌊nv⌋
    lastUpdate := now }

/-- The connection record after an accepted submission. -/
def scoredConn (room : GameRoom) (conn : Conn) (nv ev : ℚ) : Conn :=
  { conn with
    normalScore := ⌊nv⌋
    exScore := ⌊ev⌋
    displayScore := if room.scoreRule = "ex" then ⌊ev⌋ else ⌊nv⌋ }

/-- The room after an accepted submission, before the all-zero check. -/
def scoredRoom (sid : String) (room : GameRoom) (player : Player)
    (nv ev : ℚ) (now : ℕ) : GameRoom :=
  { room with
    players := mapSet sid (scoredPlayer room player nv ev now) room.players
    lastActivity := now
    lastScoreUpdate := now }

/-- Shared tail of the score handlers for an accepted submission: floor both
scores, pick the display score by the room rule, store everything on the
connection and member records, refresh the activity stamps, re-run the
all-zero check and broadcast the room. -/
def applyScore (s : ServerState) (sid : String) (conn : Conn)
    (room : GameRoom) (player : Player) (nv ev : ℚ) (now : ℕ) :
    ServerState × List Emit :=
  ({ gameRooms :=
       mapSet conn.roomId (checkAllZeroScores (scoredRoom sid room player nv ev now))
         s.gameRooms
     connections := mapSet sid (scoredConn room conn nv ev) s.connections },
   [.roomUpdate conn.roomId])

/-- The score_update handler: silently drops submissions from unknown
sockets, sockets outside a live room, spectators, malformed payloads and
out-of-range scores, mutating nothing and answering nothing in every one of
those cases. -/
def scoreUpdate (s : ServerState) (sid : String) (data : ScoreData)
    (now : ℕ) : ServerState × List Emit :=
  match mapGet sid s.connections with
  | none => (s, [])
  | some conn =>
    match mapGet conn.roomId s.gameRooms with
    | none => (s, [])
    | some room =>
      match mapGet sid room.players with
      | none => (s, [])
      | some player =>
        if !player.isPlayer then (s, [])
        else
          match extractScores data with
          | none => (s, [])
          | some (nv, ev) =>
            if scoreOutOfRange nv ev then (s, [])
            else applyScore s sid conn room player nv ev now

/-- The score_update_python handler: identical to score_update except that
the payload fields arrive destructured. -/
def scoreUpdatePython (s : ServerState) (sid : String)
    (normalScore exScore : JsVal) (now : ℕ) : ServerState × List Emit :=
  match mapGet sid s.connections with
  | none => (s, [])
  | some conn =>
    match mapGet conn.roomId s.gameRooms with
    | none => (s, [])
    | some room =>
      match mapGet sid room.players with
      | none => (s, [])
      | some player =>
        if !player.isPlayer then (s, [])
        else
          match normalScore, exScore with
          | .num nv, .num ev =>
            if scoreOutOfRange nv ev then (s, [])
            else applyScore s sid conn room player nv ev now
          | _, _ => (s, [])

/-- The live player list of the room_update broadcast built by
broadcastRoom: player members sorted by display score descending. -/
def broadcastPlayersSorted (room : GameRoom) : List Player :=
  sortDescBy (·.displayScore)
    ((room.players.map Prod.snd).filter (·.isPlayer))

/-- The periodic sweeper: delete every room idle past INACTIVE_TIMEOUT. -/
def sweeper (s : ServerState) (now : ℕ) : ServerState :=
  let rooms1 := s.gameRooms.filter
    (fun kv => !(decide (INACTIVE_TIMEOUT < now - kv.2.lastActivity)))
  { s with gameRooms := rooms1 }

end OtogeV2

namespace OtogeV1

open Otoge

/-- A user record of the first revision. -/
structure User where
  username : String
  role : String
  roomId : Option String
  points : ℕ
deriving DecidableEq

/-- A per-round score record stored in song.scores, keyed by user id. The
first revision stores submitted scores without validation or flooring. -/
structure ScoreRec where
  normal : ℚ
  ex : ℚ
  finished : Bool
deriving DecidableEq

/-- A song of the first revision: the current round with its score map. -/
structure Song where
  scores : List (String × ScoreRec)
deriving DecidableEq

/-- A room of the first revision: membership is a set of user ids in
insertion order and ownerId names the single host. -/
structure Room where
  name : String
  rule : String
  ownerId : String
  members : List String
  currentSong : Option Song
  songHistory : List Song
deriving DecidableEq

/-- Global state of the first revision. -/
structure State where
  rooms : List (String × Room)
  users : List (String × User)
deriving DecidableEq

/-- Room.addMember: a JS Set add keeps an existing element in place. -/
def Room.addMember (r : Room) (userId : String) : Room :=
  if r.members.contains userId then r
  else { r with members := r.members ++ [userId] }

/-- Room.removeMember: delete the user from the member set, and when the
departing user was the owner and members remain, hand ownership to the
first remaining member in insertion order. -/
def Room.removeMember (r : Room) (userId : String) : Room :=
  let ms := r.members.erase userId
  if r.ownerId = userId ∧ 0 < ms.length then
    { r with members := ms, ownerId := ms.headI }
  else
    { r with members := ms }

/-- Song.finishUser: mark the score record of the user finished; a user
without a score record in this round is left unmarked. -/
def Song.finishUser (song : Song) (userId : String) : Song :=
  match mapGet userId song.scores with
  | none => song
  | some sc =>
    { song with scores := mapSet userId { sc with finished := true } song.scores }

/-- One row of Song.calculateRankings. -/
structure RankedScore where
  userId : String
  score : ℚ
  normal : ℚ
  ex : ℚ
  finished : Bool
  rank : ℕ
deriving DecidableEq

/-- Song.calculateRankings: project each score record to the rule-selected
score, sort descending with the stable array sort, and number the ranks. -/
def Song.calculateRankings (song : Song) (rule : String) : List RankedScore :=
  let players := sortDescBy (fun x => x.score)
    (song.scores.map (fun kv =>
      ({ userId := kv.1
         score := if rule = "ex" then kv.2.ex else kv.2.normal
         normal := kv.2.normal
         ex := kv.2.ex
         finished := kv.2.finished
         rank := 0 } : RankedScore)))
  players.enum.map (fun ip => { ip.2 with rank := ip.1 + 1 })

/-- Room.getMemberList: resolve the member ids against the user registry,
dropping ids without a user record, and keep the ids alongside. -/
def Room.getMemberList (st : State) (r : Room) : List (String × User) :=
  r.members.filterMap (fun uid => (mapGet uid st.users).map (fun u => (uid, u)))

/-- Song.isAllPlayersFinished: every member with the player role must hold
a score record marked finished. -/
def Song.isAllPlayersFinished (st : State) (song : Song) (r : Room) : Bool :=
  ((Room.getMemberList st r).filter (fun x => x.2.role == "player")).all
    (fun x => match mapGet x.1 song.scores with
      | some sc => sc.finished
      | none => false)

/-- Result of the REST finish endpoint. -/
inductive Resp where
  | ok
  | errNotFound
  | errNoSong
deriving DecidableEq

/-- Events emitted by the finish endpoint. -/
inductive Ev where
  | userFinished (userId : String)
  | songFinished
deriving DecidableEq

/-- Add k points to the user, skipping an absent user record. -/
def addPoints (users : List (String × User)) (uid : String) (k : ℕ) :
    List (String × User) :=
  match mapGet uid users with
  | none => users
  | some u => mapSet uid { u with points := u.points + k } users

/-- Point awarding of the finish endpoint: 2 points to the ranking head,
1 point to the second entry when present. -/
def awardTop (rk : List RankedScore) (users : List (String × User)) :
    List (String × User) :=
  let u1 := match rk.head? with
    | some r => addPoints users r.userId 2
    | none => users
  match rk[1]? with
  | some r => addPoints u1 r.userId 1
  | none => u1

/-- The POST /api/rooms/:roomId/finish handler. It validates only that the
room and user exist, that the user is in this room, and that a song is
active; the role of the caller is never inspected. It marks the caller
finished, emits userFinished, and when every current player holds a
finished score record it computes the ranking, awards points, appends the
song to the history and clears the current song. -/
def finishHandler (st : State) (roomId userId : String) :
    State × List Ev × Resp :=
  match mapGet roomId st.rooms, mapGet userId st.users with
  | some room, some user =>
    if user.roomId = some roomId then
      match room.currentSong with
      | none => (st, [], .errNoSong)
      | some song =>
        let song1 := Song.finishUser song userId
        let room1 := { room with currentSong := some song1 }
        if Song.isAllPlayersFinished st song1 room1 then
          let rankings := Song.calculateRankings song1 room.rule
          let users1 := awardTop rankings st.users
          let room2 := { room1 with
            currentSong := none
            songHistory := room.songHistory ++ [song1] }
          ({ rooms := mapSet roomId room2 st.rooms, users := users1 },
           [.userFinished userId, .songFinished], .ok)
        else
          ({ rooms := mapSet roomId room1 st.rooms, users := st.users },
           [.userFinished userId], .ok)
    else (st, [], .errNotFound)
  | _, _ => (st, [], .errNotFound)

end OtogeV1

namespace Otoge

/-- Identity digest function, instantiating the hash parameter in concrete
runs whose rooms carry no password or a known digest. -/
def hashId : String → String := fun s => s

/-- Empty server state of the second revision. -/
def emptyV2 : OtogeV2.ServerState := { gameRooms := [], connections := [] }

/-- C1 run: room R is created over REST with rule ex by host. -/
def c1s1 : OtogeV2.ServerState :=
  (OtogeV2.createRoomRest hashId emptyV2 "room" none "host" (some "ex") "R" 0).1

/-- C1 run: player A joins on socket sA. -/
def c1s2 : OtogeV2.ServerState :=
  (OtogeV2.joinRoom hashId c1s1 "sA" "R" "A" none true false 1).1

/-- C1 run: player B joins on socket sB. -/
def c1s3 : OtogeV2.ServerState :=
  (OtogeV2.joinRoom hashId c1s2 "sB" "R" "B" none true false 2).1

/-- C1 run: A submits normal 100, ex 500. -/
def c1s4 : OtogeV2.ServerState :=
  (OtogeV2.scoreUpdate c1s3 "sA"
    (.obj (.num 100) (.num 500) .undef) 3).1

/-- C1 run: B submits normal 200, ex 300. -/
def c1s5 : OtogeV2.ServerState :=
  (OtogeV2.scoreUpdate c1s4 "sB"
    (.obj (.num 200) (.num 300) .undef) 4).1

/-- C1 run: A submits 0, 0. -/
def c1s6 : OtogeV2.ServerState :=
  (OtogeV2.scoreUpdate c1s5 "sA"
    (.obj (.num 0) (.num 0) .undef) 5).1

/-- C1 run: B submits 0, 0; every display score is now zero. -/
def c1s7 : OtogeV2.ServerState :=
  (OtogeV2.scoreUpdate c1s6 "sB"
    (.obj (.num 0) (.num 0) .undef) 6).1

/-- C1 run: the debounce timer fires with no intervening submission. -/
def c1fire : OtogeV2.ServerState × List OtogeV2.Emit :=
  OtogeV2.timerFire c1s7 "R" 7

/-- C2 run: room R created over REST, then filled with twelve members via
join_room, which stops accepting members at the capacity of twelve. -/
def c2full : OtogeV2.ServerState :=
  ["a", "b", "c", "d", "e", "f", "g", "h", "i", "j", "k", "l"].foldl
    (fun s n =>
      (OtogeV2.joinRoom hashId s ("s" ++ n) "R" n none true false 1).1)
    (OtogeV2.createRoomRest hashId emptyV2 "room" none "host" none "R" 0).1

/-- C2 run: a thirteenth member enters the full room through
join_room_python, which never checks capacity. -/
def c2over : OtogeV2.ServerState :=
  (OtogeV2.joinRoomPython c2full "sx" "R" "C" true 2).1

/-- C3 run: creator A opens room R through create_room, which stores A as a
member with the creator flag, then B joins. -/
def c3s1 : OtogeV2.ServerState :=
  (OtogeV2.createRoomSocket hashId emptyV2 "sA" "room" none "A" none "R" 0).1

/-- C3 run: B joins room R. -/
def c3s2 : OtogeV2.ServerState :=
  (OtogeV2.joinRoom hashId c3s1 "sB" "R" "B" none true false 1).1

/-- C3 run: the creator disconnects; cleanup removes A without touching the
creator flag of anyone else. -/
def c3s3 : OtogeV2.ServerState :=
  (OtogeV2.cleanup c3s2 "sA" 2).1

/-- C8 run: room R is created with a password, storing the digest of pw. -/
def c8s1 : OtogeV2.ServerState :=
  (OtogeV2.createRoomSocket hashId emptyV2 "sA" "room" (some "pw") "A" none
    "R" 0).1

/-- C8 run: B enters the password-protected room through join_room_python
without supplying any password. -/
def c8join : OtogeV2.ServerState × List OtogeV2.Emit :=
  OtogeV2.joinRoomPython c8s1 "sB" "R" "B" true 1

/-- The twelve-member room reached in the C2 run, read back from the state
for reuse in witnesses. -/
def c2room : OtogeV2.GameRoom :=
  (mapGet "R" c2full.gameRooms).getD
    (OtogeV2.mkRoom hashId "R" "room" none "host" none 0)

/-- The password-protected room of the C8 run, read back from the state for
reuse in witnesses. -/
def c8room : OtogeV2.GameRoom :=
  (mapGet "R" c8s1.gameRooms).getD
    (OtogeV2.mkRoom hashId "R" "room" none "host" none 0)

/-- Fixture member record for concrete witness states. -/
def wPlayer (uid : String) (ds : ℤ) (isPl : Bool) : OtogeV2.Player :=
  { userId := uid
    normalScore := ds
    exScore := ds
    displayScore := ds
    lastUpdate := 0
    joinTime := 0
    isCreator := false
    isPlayer := isPl
    isPythonClient := false }

/-- Fixture connection record for concrete witness states. -/
def wConn (uid rid : String) : OtogeV2.Conn :=
  { userId := uid
    roomId := rid
    normalScore := 0
    exScore := 0
    displayScore := 0
    joinTime := 0
    isPythonClient := false }

/-- Fixture room with rule ex for concrete witness states. -/
def wRoom (players : List (String × OtogeV2.Player)) (timer : Option ℕ) :
    OtogeV2.GameRoom :=
  { id := "R"
    name := "room"
    password := none
    creator := "host"
    scoreRule := "ex"
    players := players
    createdAt := 0
    lastActivity := 0
    isActive := true
    pythonClients := []
    currentSong := 1
    songHistory := []
    playerPoints := []
    allZeroScoreTimer := timer
    lastScoreUpdate := 0 }

/-- C4 witness fixture: a room with two players and an armed timer. -/
def c4wRoom : OtogeV2.GameRoom :=
  wRoom [("s1", wPlayer "A" 0 true), ("s2", wPlayer "B" 0 true)] (some 3000)

/-- C4 witness fixture: the connection of socket s1. -/
def c4wConn : OtogeV2.Conn := wConn "A" "R"

/-- C4 witness fixture: the server state around c4wRoom. -/
def c4wState : OtogeV2.ServerState :=
  { gameRooms := [("R", c4wRoom)]
    connections := [("s1", c4wConn), ("s2", wConn "B" "R")] }

/-- C4 witness fixture: the room cleanup leaves behind for socket s1. -/
def c4wAfter : OtogeV2.GameRoom := OtogeV2.cleanedRoom "s1" c4wRoom 9

/-- C5 witness fixture: a room whose single player shows score zero. -/
def c5wRoom : OtogeV2.GameRoom := wRoom [("s1", wPlayer "A" 0 true)] none

/-- C5 witness fixture: the server state around c5wRoom. -/
def c5wState : OtogeV2.ServerState :=
  { gameRooms := [("R", c5wRoom)]
    connections := [] }

/-- C6 witness fixture: a room with one player holding an old score. -/
def c6wRoom : OtogeV2.GameRoom := wRoom [("s1", wPlayer "A" 5 true)] none

/-- C6 witness fixture: the server state around c6wRoom. -/
def c6wState : OtogeV2.ServerState :=
  { gameRooms := [("R", c6wRoom)]
    connections := [("s1", wConn "A" "R")] }

/-- C7 witness fixture: a room whose only member is a spectator. -/
def c7wRoom : OtogeV2.GameRoom := wRoom [("s1", wPlayer "A" 3 false)] none

/-- C7 witness fixture: the server state around c7wRoom. -/
def c7wState : OtogeV2.ServerState :=
  { gameRooms := [("R", c7wRoom)]
    connections := [("s1", wConn "A" "R")] }

/-- C3 witness fixture: a first-revision room owned by A with member B. -/
def c3wRoom : OtogeV1.Room :=
  { name := "room"
    rule := "normal"
    ownerId := "A"
    members := ["A", "B"]
    currentSong := none
    songHistory := [] }

/-- C9 counterexample fixture: a song in which only player A has a score. -/
def c9xSong : OtogeV1.Song :=
  { scores := [("A", { normal := 100, ex := 100, finished := false })] }

/-- C9 counterexample fixture: a room holding player A and spectator S. -/
def c9xRoom : OtogeV1.Room :=
  { name := "room"
    rule := "normal"
    ownerId := "A"
    members := ["A", "S"]
    currentSong := some c9xSong
    songHistory := [] }

/-- C9 counterexample fixture: the state around c9xRoom. -/
def c9xState : OtogeV1.State :=
  { rooms := [("R", c9xRoom)]
    users :=
      [("A", { username := "A", role := "player", roomId := some "R",
               points := 0 }),
       ("S", { username := "S", role := "spectator", roomId := some "R",
               points := 0 })] }

/-- C9 witness fixture: a song where the sole player A has an unfinished
score record. -/
def c9wSong : OtogeV1.Song :=
  { scores := [("A", { normal := 100, ex := 200, finished := false })] }

/-- C9 witness fixture: a room with A as its only member. -/
def c9wRoom : OtogeV1.Room :=
  { name := "room"
    rule := "ex"
    ownerId := "A"
    members := ["A"]
    currentSong := some c9wSong
    songHistory := [] }

/-- C9 witness fixture: the state around c9wRoom. -/
def c9wState : OtogeV1.State :=
  { rooms := [("R", c9wRoom)]
    users :=
      [("A", { username := "A", role := "player", roomId := some "R",
               points := 0 })] }

end Otoge

namespace Otoge

/-- A set key reads back the stored value. -/
theorem mapGet_mapSet_self {α : Type} (k : String) (v : α)
    (l : List (String × α)) : mapGet k (mapSet k v l) = some v := by
  induction l with
  | nil => simp [mapGet, mapSet]
  | cons kv l ih =>
    by_cases h : kv.1 = k
    · simp [mapSet, h, mapGet]
    · simp [mapSet, h, mapGet, ih]

/-- Setting one key leaves every other key unchanged. -/
theorem mapGet_mapSet_ne {α : Type} {k k2 : String} (h : k ≠ k2) (v : α)
    (l : List (String × α)) : mapGet k (mapSet k2 v l) = mapGet k l := by
  induction l with
  | nil => simp [mapGet, mapSet, Ne.symm h]
  | cons kv l ih =>
    by_cases h2 : kv.1 = k2
    · simp [mapSet, mapGet, h2, Ne.symm h]
    · simp [mapSet, mapGet, h2, ih]

/-- A deleted key reads back nothing. -/
theorem mapGet_mapDel_self {α : Type} (k : String)
    (l : List (String × α)) : mapGet k (mapDel k l) = none := by
  induction l with
  | nil => simp [mapGet, mapDel]
  | cons kv l ih =>
    by_cases h : kv.1 = k <;> simp_all [mapDel, List.filter_cons, mapGet]

/-- Deleting one key leaves every other key unchanged. -/
theorem mapGet_mapDel_ne {α : Type} {k k2 : String} (h : k ≠ k2)
    (l : List (String × α)) : mapGet k (mapDel k2 l) = mapGet k l := by
  induction l with
  | nil => simp [mapDel]
  | cons kv l ih =>
    by_cases h2 : kv.1 = k2 <;> by_cases h3 : kv.1 = k <;>
      simp_all [mapDel, List.filter_cons, mapGet]

/-- The first binding of a key survives a filter that keeps it. -/
theorem mapGet_filter_keep {α : Type} {k : String} {v : α}
    (p : String × α → Bool) {l : List (String × α)}
    (h : mapGet k l = some v) (hp : p (k, v) = true) :
    mapGet k (l.filter p) = some v := by
  induction l with
  | nil => simp [mapGet] at h
  | cons kv l ih =>
    obtain ⟨k1, v1⟩ := kv
    by_cases h2 : k1 = k
    · subst h2
      rw [mapGet, if_pos rfl] at h
      obtain rfl : v1 = v := Option.some.inj h
      rw [List.filter_cons, if_pos hp, mapGet, if_pos rfl]
    · rw [mapGet, if_neg h2] at h
      rw [List.filter_cons]
      by_cases h3 : p (k1, v1) = true
      · rw [if_pos h3, mapGet, if_neg h2]
        exact ih h
      · rw [if_neg h3]
        exact ih h

end Otoge

namespace OtogeV2

open Otoge

/-- With someone nonzero, checkAllZeroScores always clears the timer. -/
theorem checkTimer_cancel (r : GameRoom) (hz : allZero r = false) :
    checkTimer r = none := by
  unfold checkTimer
  have hne : ¬(roomPlayers r).length = 0 := by
    intro h
    rw [List.length_eq_zero] at h
    simp [allZero, h] at hz
  rw [if_neg hne, if_neg (by simp [hz])]

/-- With players present, everyone at zero and no timer running,
checkAllZeroScores arms the timer with the fixed threshold. -/
theorem checkTimer_start (r : GameRoom) (hne : (roomPlayers r).length ≠ 0)
    (hz : allZero r = true) (ht : r.allZeroScoreTimer = none) :
    checkTimer r = some ZERO_SCORE_THRESHOLD := by
  unfold checkTimer
  rw [if_neg hne, if_pos hz, ht]
  rfl

/-- An accepted submission reduces score_update to the shared applyScore
tail. -/
theorem scoreUpdate_accepted (s : ServerState) (sid : String)
    (data : ScoreData) (now : ℕ) (conn : Conn) (room : GameRoom)
    (player : Player) (nv ev : ℚ)
    (hc : mapGet sid s.connections = some conn)
    (hr : mapGet conn.roomId s.gameRooms = some room)
    (hp : mapGet sid room.players = some player)
    (hip : player.isPlayer = true)
    (hex : extractScores data = some (nv, ev))
    (hrange : scoreOutOfRange nv ev = false) :
    scoreUpdate s sid data now = applyScore s sid conn room player nv ev now := by
  simp only [scoreUpdate, hc, hr, hp, hip, hex, hrange, Bool.not_true,
    Bool.false_eq_true, if_false]

/-- An accepted submission reduces score_update_python to applyScore. -/
theorem scoreUpdatePython_accepted (s : ServerState) (sid : String)
    (now : ℕ) (conn : Conn) (room : GameRoom) (player : Player) (nv ev : ℚ)
    (hc : mapGet sid s.connections = some conn)
    (hr : mapGet conn.roomId s.gameRooms = some room)
    (hp : mapGet sid room.players = some player)
    (hip : player.isPlayer = true)
    (hrange : scoreOutOfRange nv ev = false) :
    scoreUpdatePython s sid (.num nv) (.num ev) now =
      applyScore s sid conn room player nv ev now := by
  simp only [scoreUpdatePython, hc, hr, hp, hip, hrange, Bool.not_true,
    Bool.false_eq_true, if_false]

/-- The room applyScore stores under the connection key. -/
theorem applyScore_room_eq (s : ServerState) (sid : String) (conn : Conn)
    (room : GameRoom) (player : Player) (nv ev : ℚ) (now : ℕ) :
    mapGet conn.roomId
        (applyScore s sid conn room player nv ev now).1.gameRooms =
      some (checkAllZeroScores (scoredRoom sid room player nv ev now)) := by
  simp only [applyScore]
  exact mapGet_mapSet_self _ _ _

/-- The or-else chain of score_update maps a plain numeric object to its
two fields. -/
theorem extractScores_obj_num (nv ev : ℚ) :
    extractScores (.obj (.num nv) (.num ev) .undef) = some (nv, ev) := by
  unfold extractScores jsOr JsVal.truthy
  by_cases h1 : nv = 0 <;> by_cases h2 : ev = 0 <;> simp [h1, h2]

/-- Scores inside the accepted range pass the range guard. -/
theorem scoreOutOfRange_false {nv ev : ℚ} (h0n : 0 ≤ nv)
    (h1n : nv ≤ 99999999) (h0e : 0 ≤ ev) (h1e : ev ≤ 99999999) :
    scoreOutOfRange nv ev = false := by
  simp only [scoreOutOfRange, Bool.or_eq_false_iff, decide_eq_false_iff_not,
    not_lt]
  exact ⟨⟨⟨h0n, h1n⟩, h0e⟩, h1e⟩

end OtogeV2

namespace Otoge

/-- C1: in the room with rule ex, after A submits normal 100 ex 500 and B
submits normal 200 ex 300, the live ranking orders A before B as the claim
states. After both players then submit zero and the debounce timer fires
with no intervening submission, however, the code emits no round-finished
event, the ledger stays at A 0 and B 0, and the round counter stays at 1:
finalizeSongRanking keeps only players with positive display score, and the
zero submissions have already overwritten both scores, so the routine
returns without any effect. The outcome the claim requires, points A 2 and
B 1 with round counter 2, never occurs. -/
theorem c1_ex_round_scenario :
    ((mapGet "R" c1s5.gameRooms).map
        (fun r => (OtogeV2.broadcastPlayersSorted r).map (·.userId)) =
      some ["A", "B"]) ∧
    ((mapGet "R" c1s7.gameRooms).map (·.allZeroScoreTimer) =
      some (some OtogeV2.ZERO_SCORE_THRESHOLD)) ∧
    c1fire.2 = [] ∧
    ((mapGet "R" c1fire.1.gameRooms).map
        (fun r => (r.songHistory, r.currentSong, r.playerPoints)) =
      some ([], 1, [("A", 0), ("B", 0)])) :=
  ⟨by decide, by decide, by decide, by decide⟩

/-- C2 counterexample: a room that join_room has filled to the capacity of
twelve accepts a thirteenth member through join_room_python, which checks no
capacity, so neither the bound nor the universal RoomFull failure holds on
every join path. -/
theorem c2_python_overflow :
    (mapGet "R" c2over.gameRooms).map (fun r => r.players.length) =
      some (OtogeV2.MAX_PLAYERS_PER_ROOM + 1) := by
  decide

/-- C2 amended: the join_room path does enforce capacity: a join_room
attempt on a room at or above MAX_PLAYERS_PER_ROOM members fails with
ROOM_FULL and returns the state unchanged. -/
theorem c2_join_room_full (hash : String → String) (s : OtogeV2.ServerState)
    (sid roomId userId : String) (password : Option String)
    (isPlayer isPy : Bool) (now : ℕ) (room : OtogeV2.GameRoom)
    (hids : ¬(roomId = "" ∨ userId = ""))
    (hr : mapGet roomId s.gameRooms = some room)
    (hpw : OtogeV2.pwdFail hash room.password password = false)
    (hfull : OtogeV2.MAX_PLAYERS_PER_ROOM ≤ room.players.length) :
    OtogeV2.joinRoom hash s sid roomId userId password isPlayer isPy now =
      (s, [OtogeV2.Emit.error sid "ROOM_FULL"]) := by
  simp only [OtogeV2.joinRoom, if_neg hids, hr, hpw, Bool.false_eq_true,
    if_false, if_pos hfull]

/-- C2 witness: applying the amended theorem to the concrete full room of
the C2 run. -/
theorem c2_join_room_full_witness :
    OtogeV2.joinRoom hashId c2full "sy" "R" "Z" none true false 5 =
      (c2full, [OtogeV2.Emit.error "sy" "ROOM_FULL"]) :=
  c2_join_room_full hashId c2full "sy" "R" "Z" none true false 5 c2room
    (by decide) (by decide) (by decide) (by decide)

/-- C3 counterexample: creator A opens a room, B joins, then A disconnects.
cleanup removes A but reassigns nothing: the surviving room holds exactly
one member whose creator flag is false, while the stale creator name field
still names the departed A, so no member holds host status. -/
theorem c3_no_host_after_leave :
    (mapGet "R" c3s3.gameRooms).map
        (fun r => (r.players.map (fun kv => kv.2.isCreator), r.creator)) =
      some ([false], "A") := by
  decide

/-- C3 amended: in the first revision, Room.removeMember does preserve the
host invariant: when the owner is a member and members remain after the
removal, the owner recorded afterwards is one of the remaining members, the
departing owner having handed authority to the first remaining member
within the same operation. The second revision has no such reassignment. -/
theorem c3_owner_reassigned (r : OtogeV1.Room) (uid : String)
    (hown : r.ownerId ∈ r.members)
    (hne : r.members.erase uid ≠ []) :
    (OtogeV1.Room.removeMember r uid).ownerId ∈
      (OtogeV1.Room.removeMember r uid).members := by
  have hlen : 0 < (r.members.erase uid).length := by
    cases h : r.members.erase uid with
    | nil => exact absurd h hne
    | cons a l => simp
  unfold OtogeV1.Room.removeMember
  by_cases ho : r.ownerId = uid
  · rw [if_pos ⟨ho, hlen⟩]
    show (r.members.erase uid).headI ∈ r.members.erase uid
    cases h : r.members.erase uid with
    | nil => exact absurd h hne
    | cons a l => simp
  · rw [if_neg (fun hc => ho hc.1)]
    exact (List.mem_erase_of_ne ho).mpr hown

/-- C3 witness: removing owner A from the two-member fixture room hands
ownership to a remaining member. -/
theorem c3_owner_reassigned_witness :
    (OtogeV1.Room.removeMember c3wRoom "A").ownerId ∈
      (OtogeV1.Room.removeMember c3wRoom "A").members :=
  c3_owner_reassigned c3wRoom "A" (by decide) (by decide)

/-- C4: the timer lifecycle. First, after any accepted score submission,
when the resulting room has players, all of them show zero and no timer was
running, the timer is armed with the fixed threshold; when someone shows a
nonzero score afterwards, no timer is running, so a submission arriving
while the timer runs cancels it before it can fire. Second, leaving or
disconnecting runs cleanup, and whenever the room of the closed connection
survives, its timer slot is clear; room destruction in cleanup and in the
sweeper removes the room together with its timer slot in the same unit of
work. Third, the threshold is 3000 ms. -/
theorem c4_debounce_lifecycle :
    (∀ (s : OtogeV2.ServerState) (sid : String) (data : OtogeV2.ScoreData)
        (now : ℕ) (conn : OtogeV2.Conn) (room r1 : OtogeV2.GameRoom)
        (player : OtogeV2.Player) (nv ev : ℚ),
      mapGet sid s.connections = some conn →
      mapGet conn.roomId s.gameRooms = some room →
      mapGet sid room.players = some player →
      player.isPlayer = true →
      OtogeV2.extractScores data = some (nv, ev) →
      OtogeV2.scoreOutOfRange nv ev = false →
      mapGet conn.roomId
        (OtogeV2.scoreUpdate s sid data now).1.gameRooms = some r1 →
      ((OtogeV2.roomPlayers r1).length ≠ 0 → OtogeV2.allZero r1 = true →
        room.allZeroScoreTimer = none →
        r1.allZeroScoreTimer = some OtogeV2.ZERO_SCORE_THRESHOLD) ∧
      (OtogeV2.allZero r1 = false → r1.allZeroScoreTimer = none)) ∧
    (∀ (s : OtogeV2.ServerState) (sid : String) (now : ℕ)
        (conn : OtogeV2.Conn) (r1 : OtogeV2.GameRoom),
      mapGet sid s.connections = some conn →
      mapGet conn.roomId
        (OtogeV2.cleanup s sid now).1.gameRooms = some r1 →
      r1.allZeroScoreTimer = none) ∧
    OtogeV2.ZERO_SCORE_THRESHOLD = 3000 := by
  refine ⟨?_, ?_, rfl⟩
  · intro s sid data now conn room r1 player nv ev hc hr hp hip hex hval hr1
    rw [OtogeV2.scoreUpdate_accepted s sid data now conn room player nv ev
      hc hr hp hip hex hval, OtogeV2.applyScore_room_eq] at hr1
    obtain rfl :
        OtogeV2.checkAllZeroScores
          (OtogeV2.scoredRoom sid room player nv ev now) = r1 :=
      Option.some.inj hr1
    constructor
    · intro hne hz ht
      exact OtogeV2.checkTimer_start _ hne hz ht
    · intro hz
      exact OtogeV2.checkTimer_cancel _ hz
  · intro s sid now conn r1 hc hr1
    simp only [OtogeV2.cleanup, hc] at hr1
    cases hroom : mapGet conn.roomId s.gameRooms with
    | none =>
      rw [hroom] at hr1
      simp only [] at hr1
      rw [hroom] at hr1
      cases hr1
    | some room =>
      rw [hroom] at hr1
      simp only [] at hr1
      by_cases hempty :
          (OtogeV2.cleanedRoom sid room now).players.length = 0
      · rw [if_pos hempty] at hr1
        rw [mapGet_mapDel_self] at hr1
        cases hr1
      · rw [if_neg hempty] at hr1
        rw [mapGet_mapSet_self] at hr1
        obtain rfl : OtogeV2.cleanedRoom sid room now = r1 :=
          Option.some.inj hr1
        rfl

/-- C4 witness: in the fixture state the disconnect of socket s1 leaves
room R behind with its armed timer cleared. -/
theorem c4_debounce_lifecycle_witness :
    mapGet "s1" c4wState.connections = some c4wConn ∧
    c4wRoom.allZeroScoreTimer = some 3000 ∧
    mapGet "R" (OtogeV2.cleanup c4wState "s1" 9).1.gameRooms = some c4wAfter ∧
    c4wAfter.allZeroScoreTimer = none :=
  ⟨by decide, by decide, by decide,
   c4_debounce_lifecycle.2.1 c4wState "s1" 9 c4wConn c4wAfter
     (by decide) (by decide)⟩

/-- C5: finalizing a round in which every player shows display score zero,
which is what a round with no recorded scores looks like, has no observable
effect: the state is returned unchanged and nothing is emitted, so there is
no history entry, no ledger change, no counter advance and no broadcast.
The guard in the code keeps only players with positive display score and
returns early when none remain. -/
theorem c5_finalize_zero_noop (s : OtogeV2.ServerState) (roomId : String)
    (now : ℕ) (room : OtogeV2.GameRoom)
    (hr : mapGet roomId s.gameRooms = some room)
    (hz : ∀ p ∈ OtogeV2.roomPlayers room, p.displayScore = 0) :
    OtogeV2.finalizeSongRanking s roomId now = (s, []) := by
  have hfil : (room.players.map Prod.snd).filter
      (fun p => p.isPlayer && decide (0 < p.displayScore)) = [] := by
    rw [List.filter_eq_nil_iff]
    intro p hp
    by_cases hip : p.isPlayer
    · have hmem : p ∈ OtogeV2.roomPlayers room :=
        List.mem_filter.mpr ⟨hp, hip⟩
      simp [hip, hz p hmem]
    · simp [hip]
  simp only [OtogeV2.finalizeSongRanking, hr, hfil]
  rfl

/-- C5 witness: finalizing the fixture room whose single player shows zero
changes nothing and emits nothing. -/
theorem c5_finalize_zero_noop_witness :
    OtogeV2.finalizeSongRanking c5wState "R" 3 = (c5wState, []) :=
  c5_finalize_zero_noop c5wState "R" 3 c5wRoom (by decide) (by decide)

/-- C6: for every accepted submission by a player, through score_update
with an object payload as well as through score_update_python, with both
scores inside 0 to 99999999, the stored member record carries the floors of
both scores and its display score is the floor of the ex field when the
room rule is ex and of the normal field otherwise. -/
theorem c6_display_floor (s : OtogeV2.ServerState) (sid : String) (now : ℕ)
    (conn : OtogeV2.Conn) (room : OtogeV2.GameRoom) (player : OtogeV2.Player)
    (nv ev : ℚ)
    (hc : mapGet sid s.connections = some conn)
    (hr : mapGet conn.roomId s.gameRooms = some room)
    (hp : mapGet sid room.players = some player)
    (hip : player.isPlayer = true)
    (h0n : 0 ≤ nv) (h1n : nv ≤ 99999999)
    (h0e : 0 ≤ ev) (h1e : ev ≤ 99999999) :
    (∃ r1 p1,
      mapGet conn.roomId
        (OtogeV2.scoreUpdate s sid
          (.obj (.num nv) (.num ev) .undef) now).1.gameRooms = some r1 ∧
      mapGet sid r1.players = some p1 ∧
      p1.displayScore = (if room.scoreRule = "ex" then ⌊ev⌋ else ⌊nv⌋) ∧
      p1.normalScore = ⌊nv⌋ ∧ p1.exScore = ⌊ev⌋) ∧
    (∃ r2 p2,
      mapGet conn.roomId
        (OtogeV2.scoreUpdatePython s sid (.num nv) (.num ev) now).1.gameRooms =
        some r2 ∧
      mapGet sid r2.players = some p2 ∧
      p2.displayScore = (if room.scoreRule = "ex" then ⌊ev⌋ else ⌊nv⌋) ∧
      p2.normalScore = ⌊nv⌋ ∧ p2.exScore = ⌊ev⌋) := by
  have hval := OtogeV2.scoreOutOfRange_false h0n h1n h0e h1e
  constructor
  · refine ⟨OtogeV2.checkAllZeroScores
        (OtogeV2.scoredRoom sid room player nv ev now),
      OtogeV2.scoredPlayer room player nv ev now, ?_, ?_, rfl, rfl, rfl⟩
    · rw [OtogeV2.scoreUpdate_accepted s sid _ now conn room player nv ev hc
        hr hp hip (OtogeV2.extractScores_obj_num nv ev) hval]
      exact OtogeV2.applyScore_room_eq s sid conn room player nv ev now
    · exact mapGet_mapSet_self sid _ room.players
  · refine ⟨OtogeV2.checkAllZeroScores
        (OtogeV2.scoredRoom sid room player nv ev now),
      OtogeV2.scoredPlayer room player nv ev now, ?_, ?_, rfl, rfl, rfl⟩
    · rw [OtogeV2.scoreUpdatePython_accepted s sid now conn room player nv ev
        hc hr hp hip hval]
      exact OtogeV2.applyScore_room_eq s sid conn room player nv ev now
    · exact mapGet_mapSet_self sid _ room.players

/-- C6 witness: player A submits normal 15/2 and ex 1239/10 in the fixture
room with rule ex; the stored display score is 123, the floor of the ex
field, and the stored scores are the floors 7 and 123. -/
theorem c6_display_floor_witness :
    (∃ r1 p1,
      mapGet "R"
        (OtogeV2.scoreUpdate c6wState "s1"
          (.obj (.num (15 / 2)) (.num (1239 / 10)) .undef) 4).1.gameRooms =
        some r1 ∧
      mapGet "s1" r1.players = some p1 ∧
      p1.displayScore =
        (if c6wRoom.scoreRule = "ex" then ⌊(1239 / 10 : ℚ)⌋
         else ⌊(15 / 2 : ℚ)⌋) ∧
      p1.normalScore = ⌊(15 / 2 : ℚ)⌋ ∧ p1.exScore = ⌊(1239 / 10 : ℚ)⌋) ∧
    (∃ r2 p2,
      mapGet "R"
        (OtogeV2.scoreUpdatePython c6wState "s1" (.num (15 / 2))
          (.num (1239 / 10)) 4).1.gameRooms = some r2 ∧
      mapGet "s1" r2.players = some p2 ∧
      p2.displayScore =
        (if c6wRoom.scoreRule = "ex" then ⌊(1239 / 10 : ℚ)⌋
         else ⌊(15 / 2 : ℚ)⌋) ∧
      p2.normalScore = ⌊(15 / 2 : ℚ)⌋ ∧ p2.exScore = ⌊(1239 / 10 : ℚ)⌋) :=
  c6_display_floor c6wState "s1" 4 (wConn "A" "R") c6wRoom
    (wPlayer "A" 5 true) (15 / 2) (1239 / 10) (by decide) (by decide)
    (by decide) (by decide) (by norm_num) (by norm_num) (by norm_num)
    (by norm_num)

/-- C7: a submission through score_update mutates nothing and answers
nothing whenever the submitter is a spectator, whenever the payload does
not normalize to two numbers, and whenever either normalized score lies
outside 0 to 99999999: in each case the handler returns the state unchanged
with an empty emission list. -/
theorem c7_silent_drop :
    (∀ (s : OtogeV2.ServerState) (sid : String) (data : OtogeV2.ScoreData)
        (now : ℕ) (conn : OtogeV2.Conn) (room : OtogeV2.GameRoom)
        (player : OtogeV2.Player),
      mapGet sid s.connections = some conn →
      mapGet conn.roomId s.gameRooms = some room →
      mapGet sid room.players = some player →
      player.isPlayer = false →
      OtogeV2.scoreUpdate s sid data now = (s, [])) ∧
    (∀ (s : OtogeV2.ServerState) (sid : String) (data : OtogeV2.ScoreData)
        (now : ℕ),
      OtogeV2.extractScores data = none →
      OtogeV2.scoreUpdate s sid data now = (s, [])) ∧
    (∀ (s : OtogeV2.ServerState) (sid : String) (data : OtogeV2.ScoreData)
        (now : ℕ) (nv ev : ℚ),
      OtogeV2.extractScores data = some (nv, ev) →
      OtogeV2.scoreOutOfRange nv ev = true →
      OtogeV2.scoreUpdate s sid data now = (s, [])) := by
  refine ⟨?_, ?_, ?_⟩
  · intro s sid data now conn room player hc hr hp hip
    simp only [OtogeV2.scoreUpdate, hc, hr, hp, hip, Bool.not_false, if_true]
  · intro s sid data now hex
    cases hc : mapGet sid s.connections with
    | none => simp [OtogeV2.scoreUpdate, hc]
    | some conn =>
      cases hr : mapGet conn.roomId s.gameRooms with
      | none => simp [OtogeV2.scoreUpdate, hc, hr]
      | some room =>
        cases hp : mapGet sid room.players with
        | none => simp [OtogeV2.scoreUpdate, hc, hr, hp]
        | some player =>
          by_cases hip : player.isPlayer = true <;>
            simp [OtogeV2.scoreUpdate, hc, hr, hp, hip, hex]
  · intro s sid data now nv ev hex hrange
    cases hc : mapGet sid s.connections with
    | none => simp [OtogeV2.scoreUpdate, hc]
    | some conn =>
      cases hr : mapGet conn.roomId s.gameRooms with
      | none => simp [OtogeV2.scoreUpdate, hc, hr]
      | some room =>
        cases hp : mapGet sid room.players with
        | none => simp [OtogeV2.scoreUpdate, hc, hr, hp]
        | some player =>
          by_cases hip : player.isPlayer = true <;>
            simp [OtogeV2.scoreUpdate, hc, hr, hp, hip, hex, hrange]

/-- C7 witness: the submission of the fixture spectator with an in-range
payload is dropped without any state change or answer. -/
theorem c7_silent_drop_witness :
    OtogeV2.scoreUpdate c7wState "s1"
      (.obj (.num 10) (.num 10) .undef) 5 = (c7wState, []) :=
  c7_silent_drop.1 c7wState "s1" (.obj (.num 10) (.num 10) .undef) 5
    (wConn "A" "R") c7wRoom (wPlayer "A" 3 false)
    (by decide) (by decide) (by decide) (by decide)

/-- C8 counterexample: room R stores a password digest, yet
join_room_python accepts B without any password: the member list grows and
the joined event is emitted, so the WrongPassword failure does not hold on
every join path. -/
theorem c8_python_no_password :
    (mapGet "R" c8join.1.gameRooms).map
        (fun r => (r.password, r.players.map (fun kv => kv.2.userId))) =
      some (some "pw", ["A", "B"]) ∧
    c8join.2 = [.roomJoinedPython "sB" "R", .roomUpdate "R", .roomList] :=
  ⟨by decide, by decide⟩

/-- C8 amended: the join_room path does enforce the password: when the room
stores a digest and the digest of the supplied candidate differs from it,
join_room fails with WRONG_PASSWORD and returns the state unchanged, so the
joining user is not added. join_room_python checks no password at all. -/
theorem c8_wrong_password (hash : String → String) (s : OtogeV2.ServerState)
    (sid roomId userId : String) (password : Option String)
    (isPlayer isPy : Bool) (now : ℕ) (room : OtogeV2.GameRoom) (d p : String)
    (hids : ¬(roomId = "" ∨ userId = ""))
    (hr : mapGet roomId s.gameRooms = some room)
    (hd : room.password = some d) (hdne : d ≠ "")
    (hpass : password = some p) (hmis : hash (jsTrim p) ≠ d) :
    OtogeV2.joinRoom hash s sid roomId userId password isPlayer isPy now =
      (s, [OtogeV2.Emit.error sid "WRONG_PASSWORD"]) := by
  have hpw : OtogeV2.pwdFail hash room.password password = true := by
    rw [hd, hpass]
    simp [OtogeV2.pwdFail, hdne, hmis]
  simp only [OtogeV2.joinRoom, if_neg hids, hr, hpw, if_true]

/-- C8 witness: joining the concrete password-protected room of the C8 run
through join_room with the wrong password zz fails and changes nothing. -/
theorem c8_wrong_password_witness :
    OtogeV2.joinRoom hashId c8s1 "sC" "R" "C" (some "zz") true false 5 =
      (c8s1, [OtogeV2.Emit.error "sC" "WRONG_PASSWORD"]) :=
  c8_wrong_password hashId c8s1 "sC" "R" "C" (some "zz") true false 5
    c8room "pw" "zz" (by decide) (by decide) (by decide) (by decide) rfl
    (by decide)

/-- Adding points to a user rewrites exactly that ledger entry. -/
theorem mapGet_addPoints_self (us : List (String × OtogeV1.User))
    (uid : String) (k : ℕ) (u : OtogeV1.User)
    (h : mapGet uid us = some u) :
    mapGet uid (OtogeV1.addPoints us uid k) =
      some { u with points := u.points + k } := by
  unfold OtogeV1.addPoints
  rw [h]
  exact mapGet_mapSet_self uid _ us

/-- Adding points to one user leaves every other entry unchanged. -/
theorem mapGet_addPoints_ne {uid uid2 : String} (h : uid ≠ uid2)
    (us : List (String × OtogeV1.User)) (k : ℕ) :
    mapGet uid (OtogeV1.addPoints us uid2 k) = mapGet uid us := by
  unfold OtogeV1.addPoints
  cases h2 : mapGet uid2 us with
  | none => rfl
  | some u => exact mapGet_mapSet_ne h _ us

/-- The finish endpoint on a valid in-room caller with an active song,
reduced to its two outcome branches. -/
theorem finishHandler_eq (st : OtogeV1.State) (roomId userId : String)
    (room : OtogeV1.Room) (user : OtogeV1.User) (song : OtogeV1.Song)
    (hr : mapGet roomId st.rooms = some room)
    (hu : mapGet userId st.users = some user)
    (hin : user.roomId = some roomId)
    (hs : room.currentSong = some song) :
    OtogeV1.finishHandler st roomId userId =
      (if OtogeV1.Song.isAllPlayersFinished st
          (OtogeV1.Song.finishUser song userId)
          { room with currentSong := some (OtogeV1.Song.finishUser song userId) } then
        ({ rooms := mapSet roomId
             { room with
               currentSong := none
               songHistory :=
                 room.songHistory ++ [OtogeV1.Song.finishUser song userId] }
             st.rooms
           users := OtogeV1.awardTop
             (OtogeV1.Song.calculateRankings
               (OtogeV1.Song.finishUser song userId) room.rule) st.users },
         [.userFinished userId, .songFinished], .ok)
      else
        ({ rooms := mapSet roomId
             { room with currentSong := some (OtogeV1.Song.finishUser song userId) } st.rooms
           users := st.users },
         [.userFinished userId], .ok)) := by
  simp only [OtogeV1.finishHandler, hr, hu, hin, hs, if_pos]

/-- C9 amended: the finish endpoint never inspects the role of the caller;
any user inside the room with an active song is accepted with a success
answer and a userFinished broadcast. The caller is marked finished exactly
on its own score record when it has one. When after the marking every
member with the player role holds a finished score record, the round is
finalized synchronously: the marked song is appended to the history, the
current song is cleared, and the ledger update awards 2 points to the user
ranked first and 1 point to the user ranked second. Otherwise only the
marked song is stored. -/
theorem c9_finish_behavior (st : OtogeV1.State) (roomId userId : String)
    (room : OtogeV1.Room) (user : OtogeV1.User) (song : OtogeV1.Song)
    (sc : OtogeV1.ScoreRec)
    (hr : mapGet roomId st.rooms = some room)
    (hu : mapGet userId st.users = some user)
    (hin : user.roomId = some roomId)
    (hs : room.currentSong = some song)
    (hsc : mapGet userId song.scores = some sc) :
    (OtogeV1.finishHandler st roomId userId).2.2 = OtogeV1.Resp.ok ∧
    OtogeV1.Ev.userFinished userId ∈
      (OtogeV1.finishHandler st roomId userId).2.1 ∧
    mapGet userId (OtogeV1.Song.finishUser song userId).scores =
      some { sc with finished := true } ∧
    (OtogeV1.Song.isAllPlayersFinished st
        (OtogeV1.Song.finishUser song userId)
        { room with currentSong := some (OtogeV1.Song.finishUser song userId) } = false →
      (OtogeV1.finishHandler st roomId userId).1 =
        { rooms := mapSet roomId
            { room with currentSong := some (OtogeV1.Song.finishUser song userId) } st.rooms
          users := st.users }) ∧
    (OtogeV1.Song.isAllPlayersFinished st
        (OtogeV1.Song.finishUser song userId)
        { room with currentSong := some (OtogeV1.Song.finishUser song userId) } = true →
      ∃ room2,
        mapGet roomId (OtogeV1.finishHandler st roomId userId).1.rooms =
          some room2 ∧
        room2.currentSong = none ∧
        room2.songHistory =
          room.songHistory ++ [OtogeV1.Song.finishUser song userId] ∧
        (OtogeV1.finishHandler st roomId userId).1.users =
          OtogeV1.awardTop
            (OtogeV1.Song.calculateRankings
              (OtogeV1.Song.finishUser song userId) room.rule) st.users) ∧
    (∀ (rk : List OtogeV1.RankedScore) (us : List (String × OtogeV1.User))
        (r0 r1v : OtogeV1.RankedScore) (u0 u1v : OtogeV1.User),
      rk.head? = some r0 → rk[1]? = some r1v → r0.userId ≠ r1v.userId →
      mapGet r0.userId us = some u0 → mapGet r1v.userId us = some u1v →
      mapGet r0.userId (OtogeV1.awardTop rk us) =
        some { u0 with points := u0.points + 2 } ∧
      mapGet r1v.userId (OtogeV1.awardTop rk us) =
        some { u1v with points := u1v.points + 1 }) := by
  have hred := finishHandler_eq st roomId userId room user song hr hu hin hs
  refine ⟨?_, ?_, ?_, ?_, ?_, ?_⟩
  · rw [hred]
    split <;> rfl
  · rw [hred]
    split <;> simp
  · unfold OtogeV1.Song.finishUser
    rw [hsc]
    exact mapGet_mapSet_self userId _ song.scores
  · intro hAll
    rw [hred, if_neg (by simp [hAll])]
  · intro hAll
    rw [hred, if_pos hAll]
    exact ⟨_, mapGet_mapSet_self roomId _ st.rooms, rfl, rfl, rfl⟩
  · intro rk us r0 r1v u0 u1v hh h1 hne hu0 hu1
    cases rk with
    | nil => simp at hh
    | cons a tl =>
      obtain rfl : a = r0 := by simpa using hh
      cases tl with
      | nil => simp at h1
      | cons b tl2 =>
        obtain rfl : b = r1v := by simpa using h1
        have hform : OtogeV1.awardTop (a :: b :: tl2) us =
            OtogeV1.addPoints (OtogeV1.addPoints us a.userId 2)
              b.userId 1 := by
          simp [OtogeV1.awardTop]
        rw [hform]
        constructor
        · rw [mapGet_addPoints_ne hne]
          exact mapGet_addPoints_self us a.userId 2 u0 hu0
        · refine mapGet_addPoints_self _ b.userId 1 u1v ?_
          rw [mapGet_addPoints_ne (Ne.symm hne)]
          exact hu1

/-- C9 counterexample: spectator S calls the finish endpoint of a room with
an active song; instead of being rejected as a non-player the call is
accepted: the answer is a success, the userFinished broadcast for S is
emitted, and the state is left as before only because S holds no score
record. -/
theorem c9_spectator_not_rejected :
    OtogeV1.finishHandler c9xState "R" "S" =
      (c9xState, [OtogeV1.Ev.userFinished "S"], OtogeV1.Resp.ok) := by
  decide

/-- C9 witness: player A, the only member of the fixture room, calls the
finish endpoint; the round finalizes synchronously, appending the marked
song to the history, clearing the current song and applying the awarding to
the ledger. -/
theorem c9_finish_behavior_witness :
    ∃ room2,
      mapGet "R" (OtogeV1.finishHandler c9wState "R" "A").1.rooms =
        some room2 ∧
      room2.currentSong = none ∧
      room2.songHistory = c9wRoom.songHistory ++
        [OtogeV1.Song.finishUser c9wSong "A"] ∧
      (OtogeV1.finishHandler c9wState "R" "A").1.users =
        OtogeV1.awardTop
          (OtogeV1.Song.calculateRankings
            (OtogeV1.Song.finishUser c9wSong "A") c9wRoom.rule)
          c9wState.users :=
  (c9_finish_behavior c9wState "R" "A" c9wRoom
      { username := "A", role := "player", roomId := some "R", points := 0 }
      c9wSong { normal := 100, ex := 200, finished := false }
      (by decide) (by decide) (by decide) (by decide)
      (by decide)).2.2.2.2.1 (by decide)

/-- C10: first, a room created through the REST endpoint starts with an
empty member map and an empty ledger, its creator recorded only as a
trimmed name. Second, cleanup only ever touches the room referenced by the
connection of the closed socket, so a room no connection points to, such as
a never-joined REST room, survives every leave and disconnect unchanged.
Third, the sweeper keeps exactly the rooms whose idle time is within
INACTIVE_TIMEOUT and drops the rest, so a never-joined room is removed
precisely when the inactivity timeout has passed. -/
theorem c10_rest_room_lifecycle :
    (∀ (hash : String → String) (s : OtogeV2.ServerState)
        (roomName : String) (password : Option String) (userId : String)
        (scoreRule : Option String) (roomId : String) (now : ℕ),
      (OtogeV2.createRoomRest hash s roomName password userId scoreRule
          roomId now).2 = OtogeV2.RestResp.ok roomId →
      ∃ room,
        mapGet roomId (OtogeV2.createRoomRest hash s roomName password
            userId scoreRule roomId now).1.gameRooms = some room ∧
        room.players = [] ∧ room.creator = jsTrim userId ∧
        room.playerPoints = []) ∧
    (∀ (s : OtogeV2.ServerState) (sid : String) (now : ℕ) (roomId : String),
      (∀ conn, mapGet sid s.connections = some conn →
        conn.roomId ≠ roomId) →
      mapGet roomId (OtogeV2.cleanup s sid now).1.gameRooms =
        mapGet roomId s.gameRooms) ∧
    (∀ (s : OtogeV2.ServerState) (now : ℕ) (roomId : String)
        (room : OtogeV2.GameRoom),
      mapGet roomId s.gameRooms = some room →
      now - room.lastActivity ≤ OtogeV2.INACTIVE_TIMEOUT →
      mapGet roomId (OtogeV2.sweeper s now).gameRooms = some room) ∧
    (∀ (s : OtogeV2.ServerState) (now : ℕ) (roomId : String)
        (room : OtogeV2.GameRoom),
      (roomId, room) ∈ (OtogeV2.sweeper s now).gameRooms ↔
        (roomId, room) ∈ s.gameRooms ∧
          now - room.lastActivity ≤ OtogeV2.INACTIVE_TIMEOUT) := by
  refine ⟨?_, ?_, ?_, ?_⟩
  · intro hash s roomName password userId scoreRule roomId now hok
    by_cases h1 : roomName = "" ∨ userId = ""
    · simp [OtogeV2.createRoomRest, h1] at hok
    · by_cases h2 : 30 < roomName.length ∨ 20 < userId.length
      · simp [OtogeV2.createRoomRest, h1, h2] at hok
      · by_cases h3 : OtogeV2.badRule scoreRule = true
        · simp [OtogeV2.createRoomRest, h1, h2, h3] at hok
        · by_cases h4 : OtogeV2.MAX_ROOMS ≤ s.gameRooms.length
          · simp [OtogeV2.createRoomRest, h1, h2, h3, h4] at hok
          · refine ⟨OtogeV2.mkRoom hash roomId roomName password userId
              scoreRule now, ?_, rfl, rfl, rfl⟩
            simp [OtogeV2.createRoomRest, h1, h2, h3, h4,
              mapGet_mapSet_self]
  · intro s sid now roomId hconn
    cases hc : mapGet sid s.connections with
    | none => simp [OtogeV2.cleanup, hc]
    | some conn =>
      have hne : conn.roomId ≠ roomId := hconn conn hc
      cases hroom : mapGet conn.roomId s.gameRooms with
      | none => simp [OtogeV2.cleanup, hc, hroom]
      | some room =>
        by_cases hempty :
            (OtogeV2.cleanedRoom sid room now).players.length = 0
        · simp [OtogeV2.cleanup, hc, hroom, hempty,
            mapGet_mapDel_ne (Ne.symm hne)]
        · simp [OtogeV2.cleanup, hc, hroom, hempty,
            mapGet_mapSet_ne (Ne.symm hne)]
  · intro s now roomId room hroom hfresh
    show mapGet roomId (s.gameRooms.filter _) = some room
    refine mapGet_filter_keep _ hroom ?_
    simp only [Bool.not_eq_true', decide_eq_false_iff_not, not_lt]
    exact hfresh
  · intro s now roomId room
    simp [OtogeV2.sweeper, List.mem_filter, not_lt]

/-- C10 witness: a REST-created room in the empty state starts with no
members and an empty ledger. -/
theorem c10_rest_room_lifecycle_witness :
    ∃ room,
      mapGet "R" (OtogeV2.createRoomRest hashId emptyV2 "room" none "host"
          none "R" 7).1.gameRooms = some room ∧
      room.players = [] ∧ room.creator = jsTrim "host" ∧
      room.playerPoints = [] :=
  c10_rest_room_lifecycle.1 hashId emptyV2 "room" none "host" none "R" 7
    (by decide)

end Otoge
